import Mathlib

/-!
Shallow embedding of the komorebi window-manager state core:
the `Monitor` workspace ring operations (`src/komorebi/src/monitor.rs`)
and the command protocol / `Sizing` arithmetic
(`src/komorebi-core/src/lib.rs`), with theorems checking the
specification's testable properties against the code.

The repository slice under verification ships only `monitor.rs` and the
core `lib.rs`; the `Ring`, `Workspace` and `Container` types they use
live in modules that are not part of the slice, so those are modelled
from the specification (sections 3, 4.1 and 4.3), as marked on each
definition.
-/

namespace Komorebi

/-- Modelled from the spec: the `rect` module is not in the slice; a
rectangle is four integer coordinates (physical size / work-area
rectangles). -/
structure Rect where
  left : Int
  top : Int
  right : Int
  bottom : Int
deriving DecidableEq, Repr

/-- Modelled from the spec (section 3): the `container` module is not in
the slice; a Container is an ordered stack of window handles with one
focused handle.  Window handles are opaque; we model them as naturals. -/
structure Container where
  windows : List Nat
  focused_window : Nat
deriving DecidableEq, Repr

/-- Modelled from the spec (section 4.1): the `ring` module is not in the
slice; a Ring is an ordered sequence with a single focused index. -/
structure Ring (α : Type) where
  elements : List α
  focused : Nat
deriving DecidableEq, Repr

namespace Ring

/-- Ring lifecycle "created empty" (`Ring::default`). -/
def empty {α : Type} : Ring α := ⟨[], 0⟩

/-- `elements_mut().push_back(x)`: append at the back. -/
def push_back {α : Type} (r : Ring α) (x : α) : Ring α :=
  { r with elements := r.elements ++ [x] }

/-- `get(idx)`: the element at `idx` when in bounds. -/
def get {α : Type} (r : Ring α) (idx : Nat) : Option α :=
  r.elements[idx]?

/-- `get_mut(idx)` followed by writing `x`: replace the element at
`idx`; out-of-bounds writes are no-ops (`List.set` semantics). -/
def set {α : Type} (r : Ring α) (idx : Nat) (x : α) : Ring α :=
  { r with elements := r.elements.set idx x }

/-- Modelled from the spec (section 4.1): `remove(idx)` returns the
removed element if `idx` is in bounds, else `None`; it does not adjust
the focused index beyond keeping it in bounds. -/
def remove {α : Type} (r : Ring α) (idx : Nat) : Option α × Ring α :=
  match r.elements[idx]? with
  | none => (none, r)
  | some x =>
    let es := r.elements.eraseIdx idx
    (some x, { elements := es, focused := min r.focused (es.length - 1) })

/-- `resize(n, d)`: `VecDeque::resize` semantics — truncate to `n` or
grow by appending copies of `d`.  The spec documents it as used only for
growth in this system. -/
def resize {α : Type} (r : Ring α) (n : Nat) (d : α) : Ring α :=
  if n ≤ r.elements.length then { r with elements := r.elements.take n }
  else { r with elements := r.elements ++ List.replicate (n - r.elements.length) d }

/-- `focus(idx)`: sets the focused index unconditionally. -/
def focus {α : Type} (r : Ring α) (idx : Nat) : Ring α :=
  { r with focused := idx }

end Ring

/-- Modelled from the spec (sections 3 and 4.3): the `workspace` module
is not in the slice.  A Workspace holds a ring of containers, a floating
window set, a name, and an optional natively-maximized window slot.  The
outcomes of its two OS-facing fallible calls (`restore`, `update`) are
modelled by oracle fields, since they depend on external OS state; the
visible/hidden status is tracked in `hidden`. -/
structure Workspace where
  containers : Ring Container
  floating : List Nat
  name : Option String
  maximized_window : Option Nat
  hidden : Bool
  restore_fails : Bool
  update_fails : Bool
deriving DecidableEq, Repr

namespace Workspace

/-- `Workspace::default()`: empty, unnamed, nothing maximized. -/
def default : Workspace :=
  ⟨Ring.empty, [], none, none, false, false, false⟩

/-- Modelled from the spec (section 4.2): `restore` shows the
workspace's windows; it may fail (OS boundary), modelled by the
`restore_fails` oracle, leaving the workspace unchanged on failure. -/
def restore (w : Workspace) (_mouse_follows_focus : Bool) : Except String Workspace :=
  if w.restore_fails then Except.error "restore failed"
  else Except.ok { w with hidden := false }

/-- `hide()`: hides the workspace's windows. -/
def hide (w : Workspace) : Workspace :=
  { w with hidden := true }

/-- Modelled from the spec (section 4.3): `add_container` appends the
container and makes it focused. -/
def add_container (w : Workspace) (c : Container) : Workspace :=
  { w with
    containers :=
      ⟨w.containers.elements ++ [c], w.containers.elements.length⟩ }

/-- Modelled from the spec (section 4.3): `remove_focused_container`
removes the focused container if any, the new focus being the preceding
index, clamped. -/
def remove_focused_container (w : Workspace) : Option Container × Workspace :=
  match w.containers.elements[w.containers.focused]? with
  | none => (none, w)
  | some c =>
    (some c,
      { w with
        containers :=
          ⟨w.containers.elements.eraseIdx w.containers.focused,
           w.containers.focused - 1⟩ })

/-- `set_name(name)`. -/
def set_name (w : Workspace) (n : Option String) : Workspace :=
  { w with name := n }

/-- Modelled from the spec (section 4.2): `update` recomputes the
layout; a fallible external step modelled by the `update_fails` oracle,
leaving the workspace unchanged on failure. -/
def update (w : Workspace) (_work_area : Rect) (_offset : Option Rect)
    (_invisible_borders : Rect) : Except String Workspace :=
  if w.update_fails then Except.error "update failed" else Except.ok w

end Workspace

/-- `Monitor` (from `src/komorebi/src/monitor.rs`): id, physical size,
work-area size, the workspace ring, and the persistent index-to-name
map (a `HashMap<usize, String>`, modelled as an association list). -/
structure Monitor where
  id : Int
  size : Rect
  work_area_size : Rect
  workspaces : Ring Workspace
  workspace_names : List (Nat × String)
deriving DecidableEq, Repr

/-- `monitor::new` (monitor.rs lines 34-45): one default workspace in
the ring. -/
def Monitor.new (id : Int) (size : Rect) (work_area_size : Rect) : Monitor :=
  { id := id
    size := size
    work_area_size := work_area_size
    workspaces := Ring.empty.push_back Workspace.default
    workspace_names := [] }

namespace Monitor

/-- `focused_workspace_idx()` (generated by `impl_ring_elements!`). -/
def focused_workspace_idx (m : Monitor) : Nat :=
  m.workspaces.focused

/-- The number of workspaces, `workspaces().len()`. -/
def workspaceCount (m : Monitor) : Nat :=
  m.workspaces.elements.length

/-- `focused_workspace()` (generated by `impl_ring_elements!`). -/
def focused_workspace (m : Monitor) : Option Workspace :=
  m.workspaces.elements[m.workspaces.focused]?

/-- Helper for the loop of `load_focused_workspace`: walk the workspace
list carrying the enumeration index; restore the focused entry
(propagating its failure with `?`, which stops the iteration) and hide
every other entry. -/
def loadGo (mouse_follows_focus : Bool) (focused : Nat) :
    Nat → List Workspace → Except String Unit × List Workspace
  | _, [] => (Except.ok (), [])
  | i, w :: rest =>
    if i = focused then
      match w.restore mouse_follows_focus with
      | Except.error e => (Except.error e, w :: rest)
      | Except.ok w' =>
        let p := loadGo mouse_follows_focus focused (i + 1) rest
        (p.1, w' :: p.2)
    else
      let p := loadGo mouse_follows_focus focused (i + 1) rest
      (p.1, w.hide :: p.2)

/-- `Monitor::load_focused_workspace` (monitor.rs lines 48-59). -/
def load_focused_workspace (m : Monitor) (mouse_follows_focus : Bool) :
    Except String Unit × Monitor :=
  let focused_idx := m.focused_workspace_idx
  match loadGo mouse_follows_focus focused_idx 0 m.workspaces.elements with
  | (r, es) => (r, { m with workspaces := { m.workspaces with elements := es } })

/-- `Monitor::add_container` (monitor.rs lines 61-69). -/
def add_container (m : Monitor) (container : Container) :
    Except String Unit × Monitor :=
  match m.focused_workspace with
  | none => (Except.error "there is no workspace", m)
  | some ws =>
    (Except.ok (),
      { m with
        workspaces := m.workspaces.set m.workspaces.focused (ws.add_container container) })

/-- `Monitor::focus_workspace` (monitor.rs lines 131-157): grow the
ring to `idx + 1` if `idx` is out of bounds, focus `idx`
unconditionally, then apply any recorded name for `idx`. -/
def focus_workspace (m : Monitor) (idx : Nat) : Except String Unit × Monitor :=
  let ws :=
    if (m.workspaces.get idx).isNone
    then m.workspaces.resize (idx + 1) Workspace.default
    else m.workspaces
  let m' := { m with workspaces := ws.focus idx }
  match m'.workspace_names.lookup idx with
  | none => (Except.ok (), m')
  | some name =>
    match m'.workspaces.get idx with
    | none => (Except.error "there is no workspace", m')
    | some w =>
      (Except.ok (),
        { m' with workspaces := m'.workspaces.set idx (w.set_name (some name)) })

/-- `Monitor::remove_workspace_by_idx` (monitor.rs lines 71-83): remove
in bounds; on an out-of-bounds index, push a default workspace when
`idx == 0`, else focus `idx - 1` (the `.ok()?` returns `None` whether
or not the focus call failed). -/
def remove_workspace_by_idx (m : Monitor) (idx : Nat) : Option Workspace × Monitor :=
  if idx < m.workspaces.elements.length then
    match m.workspaces.remove idx with
    | (w, r) => (w, { m with workspaces := r })
  else if idx = 0 then
    (none, { m with workspaces := m.workspaces.push_back Workspace.default })
  else
    (none, (m.focus_workspace (idx - 1)).2)

/-- `Monitor::ensure_workspace_count` (monitor.rs lines 85-90): grow
only. -/
def ensure_workspace_count (m : Monitor) (ensure_count : Nat) : Monitor :=
  if m.workspaces.elements.length < ensure_count then
    { m with workspaces := m.workspaces.resize ensure_count Workspace.default }
  else m

/-- `Monitor::move_container_to_workspace` (monitor.rs lines 92-129).
The `unwrap` after the growing `resize` cannot fail; its dead branch is
represented by an error value. -/
def move_container_to_workspace (m : Monitor) (target_workspace_idx : Nat)
    (follow : Bool) : Except String Unit × Monitor :=
  match m.focused_workspace with
  | none => (Except.error "there is no workspace", m)
  | some workspace =>
    if workspace.maximized_window.isSome then
      (Except.error "cannot move native maximized window to another monitor or workspace", m)
    else
      match workspace.remove_focused_container with
      | (none, _) => (Except.error "there is no container", m)
      | (some container, ws') =>
        let m₁ := { m with workspaces := m.workspaces.set m.workspaces.focused ws' }
        let rs :=
          if (m₁.workspaces.get target_workspace_idx).isNone
          then m₁.workspaces.resize (target_workspace_idx + 1) Workspace.default
          else m₁.workspaces
        match rs.get target_workspace_idx with
        | none => (Except.error "unreachable: unwrap", { m₁ with workspaces := rs })
        | some target_workspace =>
          let m₂ :=
            { m₁ with
              workspaces := rs.set target_workspace_idx
                (target_workspace.add_container container) }
          if follow then
            ((m₂.focus_workspace target_workspace_idx).1.map fun _ => (),
             (m₂.focus_workspace target_workspace_idx).2)
          else (Except.ok (), m₂)

/-- `Monitor::new_workspace_idx` (monitor.rs lines 159-161). -/
def new_workspace_idx (m : Monitor) : Nat :=
  m.workspaces.elements.length

/-- `Monitor::update_focused_workspace` (monitor.rs lines 163-175). -/
def update_focused_workspace (m : Monitor) (offset : Option Rect)
    (invisible_borders : Rect) : Except String Unit × Monitor :=
  let work_area := m.work_area_size
  match m.focused_workspace with
  | none => (Except.error "there is no workspace", m)
  | some ws =>
    match ws.update work_area offset invisible_borders with
    | Except.error e => (Except.error e, m)
    | Except.ok ws' =>
      (Except.ok (),
        { m with workspaces := m.workspaces.set m.workspaces.focused ws' })

end Monitor

/-- The public `Monitor` operations named by the specification's
all-sequences invariant, as one syntactic command type. -/
inductive MonitorOp where
  | load_focused_workspace (mouse_follows_focus : Bool)
  | add_container (c : Container)
  | remove_workspace_by_idx (idx : Nat)
  | ensure_workspace_count (n : Nat)
  | move_container_to_workspace (target : Nat) (follow : Bool)
  | focus_workspace (idx : Nat)
  | new_workspace_idx
  | update_focused_workspace (offset : Option Rect) (invisible_borders : Rect)
deriving DecidableEq, Repr

/-- The state reached after one operation (return values projected
away; `new_workspace_idx` is a pure read). -/
def Monitor.applyOp (m : Monitor) : MonitorOp → Monitor
  | MonitorOp.load_focused_workspace mff => (m.load_focused_workspace mff).2
  | MonitorOp.add_container c => (m.add_container c).2
  | MonitorOp.remove_workspace_by_idx idx => (m.remove_workspace_by_idx idx).2
  | MonitorOp.ensure_workspace_count n => m.ensure_workspace_count n
  | MonitorOp.move_container_to_workspace t f => (m.move_container_to_workspace t f).2
  | MonitorOp.focus_workspace idx => (m.focus_workspace idx).2
  | MonitorOp.new_workspace_idx => m
  | MonitorOp.update_focused_workspace o b => (m.update_focused_workspace o b).2

/-! ## Command protocol (`src/komorebi-core/src/lib.rs`) -/

/-- `Sizing` (lib.rs lines 160-165). -/
inductive Sizing where
  | Increase
  | Decrease
deriving DecidableEq, Repr

/-- `Sizing::adjust_by` (lib.rs lines 167-181): `Increase` adds the
adjustment; `Decrease` subtracts it only when the value is positive and
the result would be non-negative, otherwise it returns the value
unchanged.  `i32` values are modelled as integers; the spec notes that
overflow is the caller's responsibility. -/
def Sizing.adjust_by (s : Sizing) (value adjustment : Int) : Int :=
  match s with
  | Sizing.Increase => value + adjustment
  | Sizing.Decrease =>
    if value > 0 ∧ value - adjustment ≥ 0 then value - adjustment else value

/-- `StateQuery` (lib.rs lines 122-129). -/
inductive StateQuery where
  | FocusedMonitorIndex
  | FocusedWorkspaceIndex
  | FocusedContainerIndex
  | FocusedWindowIndex
deriving DecidableEq, Repr

/-- `ApplicationIdentifier` (lib.rs lines 131-137). -/
inductive ApplicationIdentifier where
  | Exe
  | Class
  | Title
deriving DecidableEq, Repr

/-- `FocusFollowsMouseImplementation` (lib.rs lines 139-144). -/
inductive FocusFollowsMouseImplementation where
  | Komorebi
  | Windows
deriving DecidableEq, Repr

/-- `WindowContainerBehaviour` (lib.rs lines 146-151). -/
inductive WindowContainerBehaviour where
  | Create
  | Append
deriving DecidableEq, Repr

/-- `HidingBehaviour` (lib.rs lines 153-158). -/
inductive HidingBehaviour where
  | Hide
  | Minimize
deriving DecidableEq, Repr

/-- Modelled from the spec: the `operation_direction` module is not in
the slice; the window focus/move directions. -/
inductive OperationDirection where
  | Left
  | Right
  | Up
  | Down
deriving DecidableEq, Repr

/-- Modelled from the spec: the `cycle_direction` module is not in the
slice; the two cycling directions. -/
inductive CycleDirection where
  | Previous
  | Next
deriving DecidableEq, Repr

/-- Modelled from the spec: the `arrangement` module is not in the
slice; the flip/resize axes. -/
inductive Axis where
  | Horizontal
  | Vertical
  | HorizontalAndVertical
deriving DecidableEq, Repr

/-- Modelled from the spec: the `default_layout` module is not in the
slice; the named built-in layouts. -/
inductive DefaultLayout where
  | BSP
  | Columns
  | Rows
  | VerticalStack
  | HorizontalStack
  | UltrawideVerticalStack
deriving DecidableEq, Repr

/-- `PathBuf` payloads carried by the protocol, as path strings. -/
abbrev PathBuf := String

/-- `SocketMessage` (lib.rs lines 33-106), all variants in declaration
order. -/
inductive SocketMessage where
  | FocusWindow (d : OperationDirection)
  | MoveWindow (d : OperationDirection)
  | CycleFocusWindow (d : CycleDirection)
  | CycleMoveWindow (d : CycleDirection)
  | StackWindow (d : OperationDirection)
  | ResizeWindowEdge (d : OperationDirection) (s : Sizing)
  | ResizeWindowAxis (a : Axis) (s : Sizing)
  | UnstackWindow
  | CycleStack (d : CycleDirection)
  | MoveContainerToMonitorNumber (n : Nat)
  | MoveContainerToWorkspaceNumber (n : Nat)
  | SendContainerToMonitorNumber (n : Nat)
  | SendContainerToWorkspaceNumber (n : Nat)
  | MoveWorkspaceToMonitorNumber (n : Nat)
  | Promote
  | ToggleFloat
  | ToggleMonocle
  | ToggleMaximize
  | ToggleWindowContainerBehaviour
  | WindowHidingBehaviour (b : HidingBehaviour)
  | ManageFocusedWindow
  | UnmanageFocusedWindow
  | AdjustContainerPadding (s : Sizing) (i : Int)
  | AdjustWorkspacePadding (s : Sizing) (i : Int)
  | ChangeLayout (l : DefaultLayout)
  | ChangeLayoutCustom (p : PathBuf)
  | FlipLayout (a : Axis)
  | EnsureWorkspaces (monitor : Nat) (count : Nat)
  | NewWorkspace
  | ToggleTiling
  | Stop
  | TogglePause
  | Retile
  | QuickSave
  | QuickLoad
  | Save (p : PathBuf)
  | Load (p : PathBuf)
  | CycleFocusMonitor (d : CycleDirection)
  | CycleFocusWorkspace (d : CycleDirection)
  | FocusMonitorNumber (n : Nat)
  | FocusWorkspaceNumber (n : Nat)
  | FocusMonitorWorkspaceNumber (monitor : Nat) (workspace : Nat)
  | ContainerPadding (monitor : Nat) (workspace : Nat) (size : Int)
  | WorkspacePadding (monitor : Nat) (workspace : Nat) (size : Int)
  | WorkspaceTiling (monitor : Nat) (workspace : Nat) (tile : Bool)
  | WorkspaceName (monitor : Nat) (workspace : Nat) (value : String)
  | WorkspaceLayout (monitor : Nat) (workspace : Nat) (layout : DefaultLayout)
  | WorkspaceLayoutCustom (monitor : Nat) (workspace : Nat) (p : PathBuf)
  | ReloadConfiguration
  | WatchConfiguration (enable : Bool)
  | InvisibleBorders (r : Rect)
  | WorkAreaOffset (r : Rect)
  | ResizeDelta (i : Int)
  | WorkspaceRule (kind : ApplicationIdentifier) (id : String) (monitor : Nat) (workspace : Nat)
  | FloatRule (kind : ApplicationIdentifier) (id : String)
  | ManageRule (kind : ApplicationIdentifier) (id : String)
  | IdentifyTrayApplication (kind : ApplicationIdentifier) (id : String)
  | IdentifyBorderOverflow (kind : ApplicationIdentifier) (id : String)
  | State
  | Query (q : StateQuery)
  | FocusFollowsMouse (impl : FocusFollowsMouseImplementation) (enable : Bool)
  | ToggleFocusFollowsMouse (impl : FocusFollowsMouseImplementation)
  | MouseFollowsFocus (enable : Bool)
  | ToggleMouseFollowsFocus
  | AddSubscriber (subscriber : String)
  | RemoveSubscriber (subscriber : String)

/-- A JSON value, the wire format of the protocol (numbers restricted
to the integers the protocol carries). -/
inductive Json where
  | null
  | bool (b : Bool)
  | num (n : Int)
  | str (s : String)
  | arr (items : List Json)
  | obj (fields : List (String × Json))

/-! Modelled from the spec (section 4.4): the wire form is produced and
consumed by the external serde machinery configured by
`#[serde(tag = "type", content = "content")]` on `SocketMessage`
(lib.rs line 34) and by `serde_json` in `as_bytes` / `from_str`
(lib.rs lines 108-120).  Each command maps to a JSON object with a
`"type"` field naming the variant and a `"content"` field holding its
arguments in declaration order (single arguments unwrapped, several
arguments as an array, no content field for no-argument variants); the
field-less payload enums serialize as their variant-name strings.
Decoding is the exact inverse and fails on an unknown tag or malformed
content. -/

def OperationDirection.toJson : OperationDirection → Json
  | OperationDirection.Left => Json.str "Left"
  | OperationDirection.Right => Json.str "Right"
  | OperationDirection.Up => Json.str "Up"
  | OperationDirection.Down => Json.str "Down"

def OperationDirection.fromJson : Json → Except String OperationDirection
  | Json.str "Left" => Except.ok OperationDirection.Left
  | Json.str "Right" => Except.ok OperationDirection.Right
  | Json.str "Up" => Except.ok OperationDirection.Up
  | Json.str "Down" => Except.ok OperationDirection.Down
  | _ => Except.error "unknown variant of OperationDirection"

def CycleDirection.toJson : CycleDirection → Json
  | CycleDirection.Previous => Json.str "Previous"
  | CycleDirection.Next => Json.str "Next"

def CycleDirection.fromJson : Json → Except String CycleDirection
  | Json.str "Previous" => Except.ok CycleDirection.Previous
  | Json.str "Next" => Except.ok CycleDirection.Next
  | _ => Except.error "unknown variant of CycleDirection"

def Axis.toJson : Axis → Json
  | Axis.Horizontal => Json.str "Horizontal"
  | Axis.Vertical => Json.str "Vertical"
  | Axis.HorizontalAndVertical => Json.str "HorizontalAndVertical"

def Axis.fromJson : Json → Except String Axis
  | Json.str "Horizontal" => Except.ok Axis.Horizontal
  | Json.str "Vertical" => Except.ok Axis.Vertical
  | Json.str "HorizontalAndVertical" => Except.ok Axis.HorizontalAndVertical
  | _ => Except.error "unknown variant of Axis"

def Sizing.toJson : Sizing → Json
  | Sizing.Increase => Json.str "Increase"
  | Sizing.Decrease => Json.str "Decrease"

def Sizing.fromJson : Json → Except String Sizing
  | Json.str "Increase" => Except.ok Sizing.Increase
  | Json.str "Decrease" => Except.ok Sizing.Decrease
  | _ => Except.error "unknown variant of Sizing"

def HidingBehaviour.toJson : HidingBehaviour → Json
  | HidingBehaviour.Hide => Json.str "Hide"
  | HidingBehaviour.Minimize => Json.str "Minimize"

def HidingBehaviour.fromJson : Json → Except String HidingBehaviour
  | Json.str "Hide" => Except.ok HidingBehaviour.Hide
  | Json.str "Minimize" => Except.ok HidingBehaviour.Minimize
  | _ => Except.error "unknown variant of HidingBehaviour"

def DefaultLayout.toJson : DefaultLayout → Json
  | DefaultLayout.BSP => Json.str "BSP"
  | DefaultLayout.Columns => Json.str "Columns"
  | DefaultLayout.Rows => Json.str "Rows"
  | DefaultLayout.VerticalStack => Json.str "VerticalStack"
  | DefaultLayout.HorizontalStack => Json.str "HorizontalStack"
  | DefaultLayout.UltrawideVerticalStack => Json.str "UltrawideVerticalStack"

def DefaultLayout.fromJson : Json → Except String DefaultLayout
  | Json.str "BSP" => Except.ok DefaultLayout.BSP
  | Json.str "Columns" => Except.ok DefaultLayout.Columns
  | Json.str "Rows" => Except.ok DefaultLayout.Rows
  | Json.str "VerticalStack" => Except.ok DefaultLayout.VerticalStack
  | Json.str "HorizontalStack" => Except.ok DefaultLayout.HorizontalStack
  | Json.str "UltrawideVerticalStack" => Except.ok DefaultLayout.UltrawideVerticalStack
  | _ => Except.error "unknown variant of DefaultLayout"

def StateQuery.toJson : StateQuery → Json
  | StateQuery.FocusedMonitorIndex => Json.str "FocusedMonitorIndex"
  | StateQuery.FocusedWorkspaceIndex => Json.str "FocusedWorkspaceIndex"
  | StateQuery.FocusedContainerIndex => Json.str "FocusedContainerIndex"
  | StateQuery.FocusedWindowIndex => Json.str "FocusedWindowIndex"

def StateQuery.fromJson : Json → Except String StateQuery
  | Json.str "FocusedMonitorIndex" => Except.ok StateQuery.FocusedMonitorIndex
  | Json.str "FocusedWorkspaceIndex" => Except.ok StateQuery.FocusedWorkspaceIndex
  | Json.str "FocusedContainerIndex" => Except.ok StateQuery.FocusedContainerIndex
  | Json.str "FocusedWindowIndex" => Except.ok StateQuery.FocusedWindowIndex
  | _ => Except.error "unknown variant of StateQuery"

def ApplicationIdentifier.toJson : ApplicationIdentifier → Json
  | ApplicationIdentifier.Exe => Json.str "Exe"
  | ApplicationIdentifier.Class => Json.str "Class"
  | ApplicationIdentifier.Title => Json.str "Title"

def ApplicationIdentifier.fromJson : Json → Except String ApplicationIdentifier
  | Json.str "Exe" => Except.ok ApplicationIdentifier.Exe
  | Json.str "Class" => Except.ok ApplicationIdentifier.Class
  | Json.str "Title" => Except.ok ApplicationIdentifier.Title
  | _ => Except.error "unknown variant of ApplicationIdentifier"

def FocusFollowsMouseImplementation.toJson : FocusFollowsMouseImplementation → Json
  | FocusFollowsMouseImplementation.Komorebi => Json.str "Komorebi"
  | FocusFollowsMouseImplementation.Windows => Json.str "Windows"

def FocusFollowsMouseImplementation.fromJson :
    Json → Except String FocusFollowsMouseImplementation
  | Json.str "Komorebi" => Except.ok FocusFollowsMouseImplementation.Komorebi
  | Json.str "Windows" => Except.ok FocusFollowsMouseImplementation.Windows
  | _ => Except.error "unknown variant of FocusFollowsMouseImplementation"

def Rect.toJson (r : Rect) : Json :=
  Json.obj
    [("left", Json.num r.left), ("top", Json.num r.top),
     ("right", Json.num r.right), ("bottom", Json.num r.bottom)]

def Rect.fromJson : Json → Except String Rect
  | Json.obj
      [("left", Json.num l), ("top", Json.num t),
       ("right", Json.num r), ("bottom", Json.num b)] =>
    Except.ok ⟨l, t, r, b⟩
  | _ => Except.error "invalid Rect"

def natToJson (n : Nat) : Json := Json.num (Int.ofNat n)

def natFromJson : Json → Except String Nat
  | Json.num n => if n < 0 then Except.error "invalid usize" else Except.ok n.toNat
  | _ => Except.error "invalid usize"

def intFromJson : Json → Except String Int
  | Json.num n => Except.ok n
  | _ => Except.error "invalid integer"

def boolFromJson : Json → Except String Bool
  | Json.bool b => Except.ok b
  | _ => Except.error "invalid bool"

def strFromJson : Json → Except String String
  | Json.str s => Except.ok s
  | _ => Except.error "invalid string"

/-- A no-argument command: only the `"type"` field. -/
def tagOnly (t : String) : Json := Json.obj [("type", Json.str t)]

/-- A one-argument command: the content is the argument itself. -/
def tagWith (t : String) (content : Json) : Json :=
  Json.obj [("type", Json.str t), ("content", content)]

/-- A several-argument command: the content is the argument array in
declaration order. -/
def tagList (t : String) (contents : List Json) : Json :=
  tagWith t (Json.arr contents)

def SocketMessage.toJson : SocketMessage → Json
  | SocketMessage.FocusWindow d => tagWith "FocusWindow" d.toJson
  | SocketMessage.MoveWindow d => tagWith "MoveWindow" d.toJson
  | SocketMessage.CycleFocusWindow d => tagWith "CycleFocusWindow" d.toJson
  | SocketMessage.CycleMoveWindow d => tagWith "CycleMoveWindow" d.toJson
  | SocketMessage.StackWindow d => tagWith "StackWindow" d.toJson
  | SocketMessage.ResizeWindowEdge d s => tagList "ResizeWindowEdge" [d.toJson, s.toJson]
  | SocketMessage.ResizeWindowAxis a s => tagList "ResizeWindowAxis" [a.toJson, s.toJson]
  | SocketMessage.UnstackWindow => tagOnly "UnstackWindow"
  | SocketMessage.CycleStack d => tagWith "CycleStack" d.toJson
  | SocketMessage.MoveContainerToMonitorNumber n =>
    tagWith "MoveContainerToMonitorNumber" (natToJson n)
  | SocketMessage.MoveContainerToWorkspaceNumber n =>
    tagWith "MoveContainerToWorkspaceNumber" (natToJson n)
  | SocketMessage.SendContainerToMonitorNumber n =>
    tagWith "SendContainerToMonitorNumber" (natToJson n)
  | SocketMessage.SendContainerToWorkspaceNumber n =>
    tagWith "SendContainerToWorkspaceNumber" (natToJson n)
  | SocketMessage.MoveWorkspaceToMonitorNumber n =>
    tagWith "MoveWorkspaceToMonitorNumber" (natToJson n)
  | SocketMessage.Promote => tagOnly "Promote"
  | SocketMessage.ToggleFloat => tagOnly "ToggleFloat"
  | SocketMessage.ToggleMonocle => tagOnly "ToggleMonocle"
  | SocketMessage.ToggleMaximize => tagOnly "ToggleMaximize"
  | SocketMessage.ToggleWindowContainerBehaviour => tagOnly "ToggleWindowContainerBehaviour"
  | SocketMessage.WindowHidingBehaviour b => tagWith "WindowHidingBehaviour" b.toJson
  | SocketMessage.ManageFocusedWindow => tagOnly "ManageFocusedWindow"
  | SocketMessage.UnmanageFocusedWindow => tagOnly "UnmanageFocusedWindow"
  | SocketMessage.AdjustContainerPadding s i =>
    tagList "AdjustContainerPadding" [s.toJson, Json.num i]
  | SocketMessage.AdjustWorkspacePadding s i =>
    tagList "AdjustWorkspacePadding" [s.toJson, Json.num i]
  | SocketMessage.ChangeLayout l => tagWith "ChangeLayout" l.toJson
  | SocketMessage.ChangeLayoutCustom p => tagWith "ChangeLayoutCustom" (Json.str p)
  | SocketMessage.FlipLayout a => tagWith "FlipLayout" a.toJson
  | SocketMessage.EnsureWorkspaces m c =>
    tagList "EnsureWorkspaces" [natToJson m, natToJson c]
  | SocketMessage.NewWorkspace => tagOnly "NewWorkspace"
  | SocketMessage.ToggleTiling => tagOnly "ToggleTiling"
  | SocketMessage.Stop => tagOnly "Stop"
  | SocketMessage.TogglePause => tagOnly "TogglePause"
  | SocketMessage.Retile => tagOnly "Retile"
  | SocketMessage.QuickSave => tagOnly "QuickSave"
  | SocketMessage.QuickLoad => tagOnly "QuickLoad"
  | SocketMessage.Save p => tagWith "Save" (Json.str p)
  | SocketMessage.Load p => tagWith "Load" (Json.str p)
  | SocketMessage.CycleFocusMonitor d => tagWith "CycleFocusMonitor" d.toJson
  | SocketMessage.CycleFocusWorkspace d => tagWith "CycleFocusWorkspace" d.toJson
  | SocketMessage.FocusMonitorNumber n => tagWith "FocusMonitorNumber" (natToJson n)
  | SocketMessage.FocusWorkspaceNumber n => tagWith "FocusWorkspaceNumber" (natToJson n)
  | SocketMessage.FocusMonitorWorkspaceNumber m w =>
    tagList "FocusMonitorWorkspaceNumber" [natToJson m, natToJson w]
  | SocketMessage.ContainerPadding m w s =>
    tagList "ContainerPadding" [natToJson m, natToJson w, Json.num s]
  | SocketMessage.WorkspacePadding m w s =>
    tagList "WorkspacePadding" [natToJson m, natToJson w, Json.num s]
  | SocketMessage.WorkspaceTiling m w t =>
    tagList "WorkspaceTiling" [natToJson m, natToJson w, Json.bool t]
  | SocketMessage.WorkspaceName m w v =>
    tagList "WorkspaceName" [natToJson m, natToJson w, Json.str v]
  | SocketMessage.WorkspaceLayout m w l =>
    tagList "WorkspaceLayout" [natToJson m, natToJson w, l.toJson]
  | SocketMessage.WorkspaceLayoutCustom m w p =>
    tagList "WorkspaceLayoutCustom" [natToJson m, natToJson w, Json.str p]
  | SocketMessage.ReloadConfiguration => tagOnly "ReloadConfiguration"
  | SocketMessage.WatchConfiguration e => tagWith "WatchConfiguration" (Json.bool e)
  | SocketMessage.InvisibleBorders r => tagWith "InvisibleBorders" r.toJson
  | SocketMessage.WorkAreaOffset r => tagWith "WorkAreaOffset" r.toJson
  | SocketMessage.ResizeDelta i => tagWith "ResizeDelta" (Json.num i)
  | SocketMessage.WorkspaceRule k i m w =>
    tagList "WorkspaceRule" [k.toJson, Json.str i, natToJson m, natToJson w]
  | SocketMessage.FloatRule k i => tagList "FloatRule" [k.toJson, Json.str i]
  | SocketMessage.ManageRule k i => tagList "ManageRule" [k.toJson, Json.str i]
  | SocketMessage.IdentifyTrayApplication k i =>
    tagList "IdentifyTrayApplication" [k.toJson, Json.str i]
  | SocketMessage.IdentifyBorderOverflow k i =>
    tagList "IdentifyBorderOverflow" [k.toJson, Json.str i]
  | SocketMessage.State => tagOnly "State"
  | SocketMessage.Query q => tagWith "Query" q.toJson
  | SocketMessage.FocusFollowsMouse i e =>
    tagList "FocusFollowsMouse" [i.toJson, Json.bool e]
  | SocketMessage.ToggleFocusFollowsMouse i => tagWith "ToggleFocusFollowsMouse" i.toJson
  | SocketMessage.MouseFollowsFocus e => tagWith "MouseFollowsFocus" (Json.bool e)
  | SocketMessage.ToggleMouseFollowsFocus => tagOnly "ToggleMouseFollowsFocus"
  | SocketMessage.AddSubscriber s => tagWith "AddSubscriber" (Json.str s)
  | SocketMessage.RemoveSubscriber s => tagWith "RemoveSubscriber" (Json.str s)

/-- First binding of a key in a JSON object's field list. -/
def jlookup (k : String) : List (String × Json) → Option Json
  | [] => none
  | (k', v) :: rest => if k' = k then some v else jlookup k rest

/-- Content of a one-argument command. -/
def content1 : Option Json → Except String Json
  | some j => Except.ok j
  | none => Except.error "missing content"

/-- Content of a two-argument command. -/
def content2 : Option Json → Except String (Json × Json)
  | some (Json.arr [a, b]) => Except.ok (a, b)
  | _ => Except.error "invalid content"

/-- Content of a three-argument command. -/
def content3 : Option Json → Except String (Json × Json × Json)
  | some (Json.arr [a, b, c]) => Except.ok (a, b, c)
  | _ => Except.error "invalid content"

/-- Content of a four-argument command. -/
def content4 : Option Json → Except String (Json × Json × Json × Json)
  | some (Json.arr [a, b, c, d]) => Except.ok (a, b, c, d)
  | _ => Except.error "invalid content"

/-- Dispatch on the `"type"` tag; an unrecognized tag is a decode
error, never a fallback command. -/
def decodeTagged (tag : String) (c : Option Json) : Except String SocketMessage :=
  match tag with
  | "FocusWindow" => do
    let d ← OperationDirection.fromJson (← content1 c)
    Except.ok (SocketMessage.FocusWindow d)
  | "MoveWindow" => do
    let d ← OperationDirection.fromJson (← content1 c)
    Except.ok (SocketMessage.MoveWindow d)
  | "CycleFocusWindow" => do
    let d ← CycleDirection.fromJson (← content1 c)
    Except.ok (SocketMessage.CycleFocusWindow d)
  | "CycleMoveWindow" => do
    let d ← CycleDirection.fromJson (← content1 c)
    Except.ok (SocketMessage.CycleMoveWindow d)
  | "StackWindow" => do
    let d ← OperationDirection.fromJson (← content1 c)
    Except.ok (SocketMessage.StackWindow d)
  | "ResizeWindowEdge" => do
    let (a, b) ← content2 c
    let d ← OperationDirection.fromJson a
    let s ← Sizing.fromJson b
    Except.ok (SocketMessage.ResizeWindowEdge d s)
  | "ResizeWindowAxis" => do
    let (a, b) ← content2 c
    let ax ← Axis.fromJson a
    let s ← Sizing.fromJson b
    Except.ok (SocketMessage.ResizeWindowAxis ax s)
  | "UnstackWindow" => Except.ok SocketMessage.UnstackWindow
  | "CycleStack" => do
    let d ← CycleDirection.fromJson (← content1 c)
    Except.ok (SocketMessage.CycleStack d)
  | "MoveContainerToMonitorNumber" => do
    let n ← natFromJson (← content1 c)
    Except.ok (SocketMessage.MoveContainerToMonitorNumber n)
  | "MoveContainerToWorkspaceNumber" => do
    let n ← natFromJson (← content1 c)
    Except.ok (SocketMessage.MoveContainerToWorkspaceNumber n)
  | "SendContainerToMonitorNumber" => do
    let n ← natFromJson (← content1 c)
    Except.ok (SocketMessage.SendContainerToMonitorNumber n)
  | "SendContainerToWorkspaceNumber" => do
    let n ← natFromJson (← content1 c)
    Except.ok (SocketMessage.SendContainerToWorkspaceNumber n)
  | "MoveWorkspaceToMonitorNumber" => do
    let n ← natFromJson (← content1 c)
    Except.ok (SocketMessage.MoveWorkspaceToMonitorNumber n)
  | "Promote" => Except.ok SocketMessage.Promote
  | "ToggleFloat" => Except.ok SocketMessage.ToggleFloat
  | "ToggleMonocle" => Except.ok SocketMessage.ToggleMonocle
  | "ToggleMaximize" => Except.ok SocketMessage.ToggleMaximize
  | "ToggleWindowContainerBehaviour" => Except.ok SocketMessage.ToggleWindowContainerBehaviour
  | "WindowHidingBehaviour" => do
    let b ← HidingBehaviour.fromJson (← content1 c)
    Except.ok (SocketMessage.WindowHidingBehaviour b)
  | "ManageFocusedWindow" => Except.ok SocketMessage.ManageFocusedWindow
  | "UnmanageFocusedWindow" => Except.ok SocketMessage.UnmanageFocusedWindow
  | "AdjustContainerPadding" => do
    let (a, b) ← content2 c
    let s ← Sizing.fromJson a
    let i ← intFromJson b
    Except.ok (SocketMessage.AdjustContainerPadding s i)
  | "AdjustWorkspacePadding" => do
    let (a, b) ← content2 c
    let s ← Sizing.fromJson a
    let i ← intFromJson b
    Except.ok (SocketMessage.AdjustWorkspacePadding s i)
  | "ChangeLayout" => do
    let l ← DefaultLayout.fromJson (← content1 c)
    Except.ok (SocketMessage.ChangeLayout l)
  | "ChangeLayoutCustom" => do
    let p ← strFromJson (← content1 c)
    Except.ok (SocketMessage.ChangeLayoutCustom p)
  | "FlipLayout" => do
    let a ← Axis.fromJson (← content1 c)
    Except.ok (SocketMessage.FlipLayout a)
  | "EnsureWorkspaces" => do
    let (a, b) ← content2 c
    let m ← natFromJson a
    let n ← natFromJson b
    Except.ok (SocketMessage.EnsureWorkspaces m n)
  | "NewWorkspace" => Except.ok SocketMessage.NewWorkspace
  | "ToggleTiling" => Except.ok SocketMessage.ToggleTiling
  | "Stop" => Except.ok SocketMessage.Stop
  | "TogglePause" => Except.ok SocketMessage.TogglePause
  | "Retile" => Except.ok SocketMessage.Retile
  | "QuickSave" => Except.ok SocketMessage.QuickSave
  | "QuickLoad" => Except.ok SocketMessage.QuickLoad
  | "Save" => do
    let p ← strFromJson (← content1 c)
    Except.ok (SocketMessage.Save p)
  | "Load" => do
    let p ← strFromJson (← content1 c)
    Except.ok (SocketMessage.Load p)
  | "CycleFocusMonitor" => do
    let d ← CycleDirection.fromJson (← content1 c)
    Except.ok (SocketMessage.CycleFocusMonitor d)
  | "CycleFocusWorkspace" => do
    let d ← CycleDirection.fromJson (← content1 c)
    Except.ok (SocketMessage.CycleFocusWorkspace d)
  | "FocusMonitorNumber" => do
    let n ← natFromJson (← content1 c)
    Except.ok (SocketMessage.FocusMonitorNumber n)
  | "FocusWorkspaceNumber" => do
    let n ← natFromJson (← content1 c)
    Except.ok (SocketMessage.FocusWorkspaceNumber n)
  | "FocusMonitorWorkspaceNumber" => do
    let (a, b) ← content2 c
    let m ← natFromJson a
    let w ← natFromJson b
    Except.ok (SocketMessage.FocusMonitorWorkspaceNumber m w)
  | "ContainerPadding" => do
    let (a, b, d) ← content3 c
    let m ← natFromJson a
    let w ← natFromJson b
    let s ← intFromJson d
    Except.ok (SocketMessage.ContainerPadding m w s)
  | "WorkspacePadding" => do
    let (a, b, d) ← content3 c
    let m ← natFromJson a
    let w ← natFromJson b
    let s ← intFromJson d
    Except.ok (SocketMessage.WorkspacePadding m w s)
  | "WorkspaceTiling" => do
    let (a, b, d) ← content3 c
    let m ← natFromJson a
    let w ← natFromJson b
    let t ← boolFromJson d
    Except.ok (SocketMessage.WorkspaceTiling m w t)
  | "WorkspaceName" => do
    let (a, b, d) ← content3 c
    let m ← natFromJson a
    let w ← natFromJson b
    let v ← strFromJson d
    Except.ok (SocketMessage.WorkspaceName m w v)
  | "WorkspaceLayout" => do
    let (a, b, d) ← content3 c
    let m ← natFromJson a
    let w ← natFromJson b
    let l ← DefaultLayout.fromJson d
    Except.ok (SocketMessage.WorkspaceLayout m w l)
  | "WorkspaceLayoutCustom" => do
    let (a, b, d) ← content3 c
    let m ← natFromJson a
    let w ← natFromJson b
    let p ← strFromJson d
    Except.ok (SocketMessage.WorkspaceLayoutCustom m w p)
  | "ReloadConfiguration" => Except.ok SocketMessage.ReloadConfiguration
  | "WatchConfiguration" => do
    let e ← boolFromJson (← content1 c)
    Except.ok (SocketMessage.WatchConfiguration e)
  | "InvisibleBorders" => do
    let r ← Rect.fromJson (← content1 c)
    Except.ok (SocketMessage.InvisibleBorders r)
  | "WorkAreaOffset" => do
    let r ← Rect.fromJson (← content1 c)
    Except.ok (SocketMessage.WorkAreaOffset r)
  | "ResizeDelta" => do
    let i ← intFromJson (← content1 c)
    Except.ok (SocketMessage.ResizeDelta i)
  | "WorkspaceRule" => do
    let (a, b, d, e) ← content4 c
    let k ← ApplicationIdentifier.fromJson a
    let i ← strFromJson b
    let m ← natFromJson d
    let w ← natFromJson e
    Except.ok (SocketMessage.WorkspaceRule k i m w)
  | "FloatRule" => do
    let (a, b) ← content2 c
    let k ← ApplicationIdentifier.fromJson a
    let i ← strFromJson b
    Except.ok (SocketMessage.FloatRule k i)
  | "ManageRule" => do
    let (a, b) ← content2 c
    let k ← ApplicationIdentifier.fromJson a
    let i ← strFromJson b
    Except.ok (SocketMessage.ManageRule k i)
  | "IdentifyTrayApplication" => do
    let (a, b) ← content2 c
    let k ← ApplicationIdentifier.fromJson a
    let i ← strFromJson b
    Except.ok (SocketMessage.IdentifyTrayApplication k i)
  | "IdentifyBorderOverflow" => do
    let (a, b) ← content2 c
    let k ← ApplicationIdentifier.fromJson a
    let i ← strFromJson b
    Except.ok (SocketMessage.IdentifyBorderOverflow k i)
  | "State" => Except.ok SocketMessage.State
  | "Query" => do
    let q ← StateQuery.fromJson (← content1 c)
    Except.ok (SocketMessage.Query q)
  | "FocusFollowsMouse" => do
    let (a, b) ← content2 c
    let i ← FocusFollowsMouseImplementation.fromJson a
    let e ← boolFromJson b
    Except.ok (SocketMessage.FocusFollowsMouse i e)
  | "ToggleFocusFollowsMouse" => do
    let i ← FocusFollowsMouseImplementation.fromJson (← content1 c)
    Except.ok (SocketMessage.ToggleFocusFollowsMouse i)
  | "MouseFollowsFocus" => do
    let e ← boolFromJson (← content1 c)
    Except.ok (SocketMessage.MouseFollowsFocus e)
  | "ToggleMouseFollowsFocus" => Except.ok SocketMessage.ToggleMouseFollowsFocus
  | "AddSubscriber" => do
    let s ← strFromJson (← content1 c)
    Except.ok (SocketMessage.AddSubscriber s)
  | "RemoveSubscriber" => do
    let s ← strFromJson (← content1 c)
    Except.ok (SocketMessage.RemoveSubscriber s)
  | _ => Except.error "unknown variant of SocketMessage"

/-- Decoding a wire value (`FromStr for SocketMessage`, after JSON
parsing): require an object with a string `"type"` tag and dispatch. -/
def SocketMessage.fromJson : Json → Except String SocketMessage
  | Json.obj fields =>
    match jlookup "type" fields with
    | some (Json.str tag) => decodeTagged tag (jlookup "content" fields)
    | _ => Except.error "missing type tag"
  | _ => Except.error "expected a JSON object"

/-! ## Concrete instances used by witnesses and counterexamples -/

def rect0 : Rect := ⟨0, 0, 0, 0⟩

/-- A freshly constructed monitor: `new(0, rect0, rect0)`. -/
def monitor0 : Monitor := Monitor.new 0 rect0 rect0

/-- A workspace whose OS `restore` call fails. -/
def wsRestoreFail : Workspace := { Workspace.default with restore_fails := true }

/-- Two workspaces, the focused one (index 0) failing to restore. -/
def monitorC2 : Monitor :=
  { monitor0 with workspaces := ⟨[wsRestoreFail, Workspace.default], 0⟩ }

/-- The monitor left behind after removing the only workspace of a
fresh monitor: its ring is empty. -/
def monitorEmptyRing : Monitor := (monitor0.remove_workspace_by_idx 0).2

/-- A workspace whose maximized-window slot is set. -/
def wsMax : Workspace := { Workspace.default with maximized_window := some 3 }

/-- A single-workspace monitor whose focused workspace holds a
natively-maximized window. -/
def monitorMax : Monitor := { monitor0 with workspaces := ⟨[wsMax], 0⟩ }

/-- A single container holding one window handle. -/
def container0 : Container := ⟨[7], 0⟩

/-- A fresh monitor whose focused workspace holds one container. -/
def monitor1c : Monitor := (monitor0.add_container container0).2

/-- A monitor with the name "dev" recorded for index 0 and applied to
the workspace at index 0. -/
def monitorNamed : Monitor :=
  { monitor0 with
    workspaces := ⟨[Workspace.default.set_name (some "dev")], 0⟩
    workspace_names := [(0, "dev")] }

/-- The source workspace after `remove_focused_container` succeeds
(names the intermediate state of `move_container_to_workspace`). -/
def wsAfterRemoval (ws : Workspace) : Workspace :=
  { ws with
    containers :=
      ⟨ws.containers.elements.eraseIdx ws.containers.focused,
       ws.containers.focused - 1⟩ }

/-- The monitor state reached inside `move_container_to_workspace`
just before the final focus switch, when the target index `t` lies out
of bounds: source workspace replaced by `wsAfterRemoval ws`, ring grown
to `t + 1`, container appended to the fresh target workspace. -/
def movedMonitor (m : Monitor) (t : Nat) (ws : Workspace) (c : Container) : Monitor :=
  { m with
    workspaces :=
      ((m.workspaces.set m.workspaces.focused (wsAfterRemoval ws)).resize
          (t + 1) Workspace.default).set t (Workspace.default.add_container c) }

/-! ## Helper lemmas -/

theorem Ring.length_resize {α : Type} (r : Ring α) (n : Nat) (d : α) :
    (r.resize n d).elements.length = n := by
  unfold Ring.resize
  split <;> simp <;> omega

theorem Ring.focused_resize {α : Type} (r : Ring α) (n : Nat) (d : α) :
    (r.resize n d).focused = r.focused := by
  unfold Ring.resize
  split <;> rfl

theorem Ring.elements_resize_grow {α : Type} (r : Ring α) (n : Nat) (d : α)
    (h : r.elements.length < n) :
    (r.resize n d).elements = r.elements ++ List.replicate (n - r.elements.length) d := by
  unfold Ring.resize
  rw [if_neg (by omega)]

theorem loadGo_length (mff : Bool) (focused : Nat) (ws : List Workspace) :
    ∀ i, (Monitor.loadGo mff focused i ws).2.length = ws.length := by
  induction ws with
  | nil => intro i; rfl
  | cons w rest ih =>
    intro i
    simp only [Monitor.loadGo]
    split
    · cases h : w.restore mff with
      | error e => simp [h]
      | ok w' => simp [h, ih]
    · simp [ih]

theorem loadGo_restore_fail (mff : Bool) (ws : List Workspace) :
    ∀ i focused w, i ≤ focused → ws[focused - i]? = some w → w.restore_fails = true →
      Monitor.loadGo mff focused i ws
        = (Except.error "restore failed",
           (ws.take (focused - i)).map Workspace.hide ++ ws.drop (focused - i)) := by
  induction ws with
  | nil =>
    intro i focused w _ hw _
    simp at hw
  | cons w0 rest ih =>
    intro i focused w hle hw hfail
    rcases Nat.eq_or_lt_of_le hle with heq | hlt
    · subst heq
      have h0 : i - i = 0 := by omega
      rw [h0] at hw
      simp only [List.getElem?_cons_zero, Option.some_inj] at hw
      subst hw
      simp [Monitor.loadGo, Workspace.restore, hfail, h0]
    · have hne : i ≠ focused := by omega
      have hk : focused - i = (focused - (i + 1)) + 1 := by omega
      rw [hk] at hw
      simp only [List.getElem?_cons_succ] at hw
      have hrec := ih (i + 1) focused w (by omega) hw hfail
      simp only [Monitor.loadGo, if_neg hne, hrec, hk]
      simp [List.take_succ_cons, List.drop_succ_cons]

theorem focus_workspace_names (m : Monitor) (idx : Nat) :
    (m.focus_workspace idx).2.workspace_names = m.workspace_names := by
  unfold Monitor.focus_workspace
  dsimp only
  cases hl : List.lookup idx m.workspace_names with
  | none => simp [hl]
  | some name =>
    simp only [hl]
    split <;> rfl

theorem focus_workspace_focused (m : Monitor) (idx : Nat) :
    (m.focus_workspace idx).2.workspaces.focused = idx := by
  unfold Monitor.focus_workspace
  dsimp only
  cases hl : List.lookup idx m.workspace_names with
  | none => simp [hl, Ring.focus]
  | some name =>
    simp only [hl]
    split <;> simp [Ring.focus, Ring.set]

theorem focus_workspace_count (m : Monitor) (idx : Nat) :
    (m.focus_workspace idx).2.workspaceCount
      = if idx < m.workspaceCount then m.workspaceCount else idx + 1 := by
  unfold Monitor.focus_workspace Monitor.workspaceCount
  dsimp only
  by_cases h : idx < m.workspaces.elements.length
  · simp only [Ring.get, List.getElem?_eq_getElem h, Option.isNone_some, Bool.false_eq_true,
      if_false]
    cases hl : List.lookup idx m.workspace_names with
    | none => simp [hl, Ring.focus, h]
    | some name =>
      simp only [hl]
      split <;> simp [Ring.focus, Ring.set, h]
  · have hge : m.workspaces.elements.length ≤ idx := by omega
    simp only [Ring.get, List.getElem?_eq_none hge, Option.isNone_none, if_true]
    cases hl : List.lookup idx m.workspace_names with
    | none => simp [hl, Ring.focus, Ring.length_resize, h]
    | some name =>
      simp only [hl]
      split <;> simp [Ring.focus, Ring.set, Ring.length_resize, h]

theorem focus_workspace_fst (m : Monitor) (idx : Nat) :
    (m.focus_workspace idx).1 = Except.ok () := by
  unfold Monitor.focus_workspace
  dsimp only
  by_cases h : idx < m.workspaces.elements.length
  · simp only [Ring.get, List.getElem?_eq_getElem h, Option.isNone_some, Bool.false_eq_true,
      if_false]
    cases hl : List.lookup idx m.workspace_names with
    | none => simp [hl]
    | some name =>
      simp only [hl, Ring.focus, Ring.get, List.getElem?_eq_getElem h]
  · have hge : m.workspaces.elements.length ≤ idx := by omega
    simp only [Ring.get, List.getElem?_eq_none hge, Option.isNone_none, if_true]
    cases hl : List.lookup idx m.workspace_names with
    | none => simp [hl]
    | some name =>
      have hlt : idx < ((m.workspaces.resize (idx + 1) Workspace.default).focus idx).elements.length := by
        simp [Ring.focus, Ring.length_resize]
      simp only [hl, Ring.get, List.getElem?_eq_getElem hlt]

theorem focus_workspace_eta (m : Monitor) (idx : Nat) :
    m.focus_workspace idx = (Except.ok (), (m.focus_workspace idx).2) := by
  have h := focus_workspace_fst m idx
  cases hp : m.focus_workspace idx
  rw [hp] at h
  simp_all

theorem focus_workspace_applies_name (m : Monitor) (idx : Nat) (name : String)
    (hl : List.lookup idx m.workspace_names = some name) :
    ((m.focus_workspace idx).2.workspaces.elements[idx]?).map Workspace.name
      = some (some name) := by
  unfold Monitor.focus_workspace
  dsimp only
  by_cases h : idx < m.workspaces.elements.length
  · simp only [Ring.get, List.getElem?_eq_getElem h, Option.isNone_some, Bool.false_eq_true,
      if_false, hl]
    simp only [Ring.focus, Ring.get, List.getElem?_eq_getElem h]
    simp [Ring.set, List.getElem?_set_self h, Workspace.set_name]
  · have hge : m.workspaces.elements.length ≤ idx := by omega
    simp only [Ring.get, List.getElem?_eq_none hge, Option.isNone_none, if_true, hl]
    have hlt : idx
        < ((m.workspaces.resize (idx + 1) Workspace.default).focus idx).elements.length := by
      simp [Ring.focus, Ring.length_resize]
    simp only [Ring.get, List.getElem?_eq_getElem hlt]
    simp [Ring.set, List.getElem?_set_self hlt, Workspace.set_name]

theorem focus_workspace_getElem_ne (m : Monitor) (idx j : Nat) (hj : j ≠ idx)
    (h : idx < m.workspaceCount) :
    (m.focus_workspace idx).2.workspaces.elements[j]? = m.workspaces.elements[j]? := by
  unfold Monitor.focus_workspace
  dsimp only
  have h' : idx < m.workspaces.elements.length := h
  simp only [Ring.get, List.getElem?_eq_getElem h', Option.isNone_some, Bool.false_eq_true,
    if_false]
  cases hl : List.lookup idx m.workspace_names with
  | none => simp [hl, Ring.focus]
  | some name =>
    simp only [hl, Ring.focus, Ring.get, List.getElem?_eq_getElem h']
    simp [Ring.set, List.getElem?_set_ne (fun he => hj he.symm)]

theorem focus_workspace_getElem_containers (m : Monitor) (idx : Nat)
    (h : idx < m.workspaceCount) :
    ((m.focus_workspace idx).2.workspaces.elements[idx]?).map Workspace.containers
      = (m.workspaces.elements[idx]?).map Workspace.containers := by
  unfold Monitor.focus_workspace
  dsimp only
  have h' : idx < m.workspaces.elements.length := h
  simp only [Ring.get, List.getElem?_eq_getElem h', Option.isNone_some, Bool.false_eq_true,
    if_false]
  cases hl : List.lookup idx m.workspace_names with
  | none => simp [hl, Ring.focus, List.getElem?_eq_getElem h']
  | some name =>
    simp only [hl, Ring.focus, Ring.get, List.getElem?_eq_getElem h']
    simp [Ring.set, List.getElem?_set_self h', Workspace.set_name,
      List.getElem?_eq_getElem h']

theorem remove_in_bounds (m : Monitor) (idx : Nat) (h : idx < m.workspaceCount) :
    (m.remove_workspace_by_idx idx).1 = m.workspaces.elements[idx]? ∧
    (m.remove_workspace_by_idx idx).2.workspaces.elements
      = m.workspaces.elements.eraseIdx idx := by
  unfold Monitor.remove_workspace_by_idx
  have h' : idx < m.workspaces.elements.length := h
  rw [if_pos h']
  unfold Ring.remove
  simp [List.getElem?_eq_getElem h']

theorem remove_names (m : Monitor) (idx : Nat) :
    (m.remove_workspace_by_idx idx).2.workspace_names = m.workspace_names := by
  unfold Monitor.remove_workspace_by_idx
  split
  · unfold Ring.remove
    split
    all_goals rfl
  · split
    · rfl
    · exact focus_workspace_names m (idx - 1)

theorem focus_workspace_count_pos (m : Monitor) (idx : Nat) :
    1 ≤ (m.focus_workspace idx).2.workspaceCount := by
  rw [focus_workspace_count]
  split
  · omega
  · omega

theorem move_count_ge_one (m : Monitor) (t : Nat) (f : Bool)
    (h1 : 1 ≤ m.workspaceCount) :
    1 ≤ (m.move_container_to_workspace t f).2.workspaceCount := by
  unfold Monitor.move_container_to_workspace
  split
  · exact h1
  · split
    · exact h1
    · split
      · exact h1
      · dsimp only
        split
        · unfold Monitor.workspaceCount
          dsimp only
          split
          · simp only [Ring.length_resize]
            omega
          · simpa [Monitor.workspaceCount, Ring.set] using h1
        · split
          · exact focus_workspace_count_pos _ t
          · unfold Monitor.workspaceCount
            dsimp only [Ring.set]
            simp only [List.length_set]
            split
            · simp only [Ring.length_resize]
              omega
            · simpa [Monitor.workspaceCount, Ring.set] using h1

/-! ## Claims -/

/-- C2 counterexample: on a monitor with two workspaces whose focused
workspace (index 0) fails to restore, `load_focused_workspace` returns
the restore error but the non-focused workspace at index 1 has NOT been
hidden — the failure does short-circuit the hiding pass, refuting the
claim that every non-focused workspace is still hidden. -/
theorem C2_counterexample :
    (monitorC2.load_focused_workspace false).1 = Except.error "restore failed" ∧
    ((monitorC2.load_focused_workspace false).2.workspaces.elements[1]?).map Workspace.hidden
      = some false :=
  ⟨rfl, rfl⟩

/-- C2 (amended): when `restore` fails on the focused workspace,
`load_focused_workspace` returns that error and the iteration stops
there: the non-focused workspaces before the focused index have been
hidden, and every workspace from the focused index on (including the
non-focused ones after it) is left untouched. -/
theorem C2_amended_restore_failure_short_circuits (m : Monitor) (mff : Bool) (w : Workspace)
    (hw : m.workspaces.elements[m.workspaces.focused]? = some w)
    (hfail : w.restore_fails = true) :
    (m.load_focused_workspace mff).1 = Except.error "restore failed" ∧
    (m.load_focused_workspace mff).2.workspaces.elements
      = (m.workspaces.elements.take m.workspaces.focused).map Workspace.hide
        ++ m.workspaces.elements.drop m.workspaces.focused := by
  have h := loadGo_restore_fail mff m.workspaces.elements 0 m.workspaces.focused w
    (Nat.zero_le _) (by simpa using hw) hfail
  rw [Nat.sub_zero] at h
  unfold Monitor.load_focused_workspace Monitor.focused_workspace_idx
  simp [h]

/-- C2 witness: the amended statement at the concrete two-workspace
monitor. -/
theorem C2_witness :
    (monitorC2.load_focused_workspace false).1 = Except.error "restore failed" ∧
    (monitorC2.load_focused_workspace false).2.workspaces.elements
      = (monitorC2.workspaces.elements.take monitorC2.workspaces.focused).map Workspace.hide
        ++ monitorC2.workspaces.elements.drop monitorC2.workspaces.focused :=
  C2_amended_restore_failure_short_circuits monitorC2 false wsRestoreFail rfl rfl

/-- C3: for every monitor state and index, `focus_workspace(idx)`
succeeds, an immediately following read of the focused workspace index
returns `idx`, and when `idx` was out of bounds the ring has been grown
to length `idx + 1`. -/
theorem C3_focus_workspace_sets_index (m : Monitor) (idx : Nat) :
    (m.focus_workspace idx).1 = Except.ok () ∧
    (m.focus_workspace idx).2.focused_workspace_idx = idx ∧
    (m.workspaceCount ≤ idx → (m.focus_workspace idx).2.workspaceCount = idx + 1) := by
  refine ⟨focus_workspace_fst m idx, focus_workspace_focused m idx, ?_⟩
  intro h
  rw [focus_workspace_count]
  rw [if_neg (by omega)]

/-- C3 witness: focusing index 3 on a fresh one-workspace monitor
succeeds, focuses 3 and grows the ring to length 4. -/
theorem C3_witness :
    (monitor0.focus_workspace 3).1 = Except.ok () ∧
    (monitor0.focus_workspace 3).2.focused_workspace_idx = 3 ∧
    (monitor0.focus_workspace 3).2.workspaceCount = 3 + 1 :=
  ⟨(C3_focus_workspace_sets_index monitor0 3).1,
   (C3_focus_workspace_sets_index monitor0 3).2.1,
   (C3_focus_workspace_sets_index monitor0 3).2.2 (by decide)⟩

/-- C8: `adjust_by` adds on `Increase`; on `Decrease` it subtracts
exactly when the value is positive and the result would be
non-negative, and otherwise returns the value unchanged; with the
claim's concrete examples. -/
theorem C8_sizing_adjust_by (value adjustment : Int) :
    Sizing.Increase.adjust_by value adjustment = value + adjustment ∧
    (value > 0 ∧ value - adjustment ≥ 0 →
      Sizing.Decrease.adjust_by value adjustment = value - adjustment) ∧
    (¬(value > 0 ∧ value - adjustment ≥ 0) →
      Sizing.Decrease.adjust_by value adjustment = value) ∧
    Sizing.Decrease.adjust_by 0 5 = 0 ∧
    Sizing.Decrease.adjust_by 3 5 = 3 ∧
    Sizing.Increase.adjust_by 3 5 = 8 := by
  refine ⟨rfl, ?_, ?_, by decide, by decide, by decide⟩
  · intro h
    unfold Sizing.adjust_by
    rw [if_pos h]
  · intro h
    unfold Sizing.adjust_by
    rw [if_neg h]

/-- C8 witness: both `Decrease` branches at concrete inputs. -/
theorem C8_witness :
    Sizing.Decrease.adjust_by 7 2 = 7 - 2 ∧
    Sizing.Decrease.adjust_by 0 (-3) = 0 :=
  ⟨(C8_sizing_adjust_by 7 2).2.1 (by decide),
   (C8_sizing_adjust_by 0 (-3)).2.2.1 (by decide)⟩

/-- C10: a `Decrease` whose adjustment is negative passes the guard
whenever the value is positive and the result is non-negative, and so
returns `value - adjustment`, strictly greater than `value` — the guard
never checks the adjustment's sign. -/
theorem C10_decrease_negative_adjustment_grows (value adjustment : Int)
    (hv : value > 0) (ha : adjustment < 0) (hr : value - adjustment ≥ 0) :
    Sizing.Decrease.adjust_by value adjustment = value - adjustment ∧
    value < value - adjustment := by
  refine ⟨?_, by omega⟩
  unfold Sizing.adjust_by
  rw [if_pos ⟨hv, hr⟩]

/-- C10 witness: `Decrease.adjust_by(3, -5) = 8 > 3`. -/
theorem C10_witness :
    Sizing.Decrease.adjust_by 3 (-5) = 3 - (-5) ∧ (3 : Int) < 3 - (-5) :=
  C10_decrease_negative_adjustment_grows 3 (-5) (by decide) (by decide) (by decide)

/-- C9: the tagged wire form of `WorkspaceRule(Exe, "app.exe", 2, 1)`
is the object with `"type"` naming the variant and `"content"` holding
the arguments in declaration order; decoding it yields back an equal
value; and an unknown tag or malformed content decodes to an error, not
a fallback command. -/
theorem C9_wire_round_trip :
    SocketMessage.fromJson
        (SocketMessage.WorkspaceRule ApplicationIdentifier.Exe "app.exe" 2 1).toJson
      = Except.ok (SocketMessage.WorkspaceRule ApplicationIdentifier.Exe "app.exe" 2 1) ∧
    (SocketMessage.WorkspaceRule ApplicationIdentifier.Exe "app.exe" 2 1).toJson
      = Json.obj
          [("type", Json.str "WorkspaceRule"),
           ("content",
             Json.arr [Json.str "Exe", Json.str "app.exe", Json.num 2, Json.num 1])] ∧
    SocketMessage.fromJson (Json.obj [("type", Json.str "Bogus")])
      = Except.error "unknown variant of SocketMessage" ∧
    SocketMessage.fromJson
        (Json.obj [("type", Json.str "WorkspaceRule"),
          ("content", Json.arr [Json.str "Exe", Json.str "app.exe"])])
      = Except.error "invalid content" :=
  ⟨rfl, rfl, rfl, rfl⟩

/-- C4: `remove_workspace_by_idx(idx)` by exact case analysis — in
bounds it removes and returns the workspace at `idx`; out of bounds
with `idx == 0` it pushes a fresh default workspace and returns `None`;
otherwise it moves focus to `idx - 1` (the focus call's failure being
ignored, as the result is `None` either way) and returns `None`. -/
theorem C4_remove_workspace_case_analysis (m : Monitor) (idx : Nat) :
    (idx < m.workspaceCount →
      (∃ w, m.workspaces.elements[idx]? = some w ∧
        (m.remove_workspace_by_idx idx).1 = some w) ∧
      (m.remove_workspace_by_idx idx).2.workspaces.elements
        = m.workspaces.elements.eraseIdx idx) ∧
    (m.workspaceCount ≤ idx → idx = 0 →
      (m.remove_workspace_by_idx idx).1 = none ∧
      (m.remove_workspace_by_idx idx).2.workspaces.elements
        = m.workspaces.elements ++ [Workspace.default]) ∧
    (m.workspaceCount ≤ idx → idx ≠ 0 →
      (m.remove_workspace_by_idx idx).1 = none ∧
      (m.remove_workspace_by_idx idx).2 = (m.focus_workspace (idx - 1)).2) := by
  refine ⟨?_, ?_, ?_⟩
  · intro h
    obtain ⟨h1, h2⟩ := remove_in_bounds m idx h
    exact ⟨⟨m.workspaces.elements[idx], List.getElem?_eq_getElem h,
      by rw [h1, List.getElem?_eq_getElem h]⟩, h2⟩
  · intro hge h0
    subst h0
    unfold Monitor.remove_workspace_by_idx
    rw [if_neg (by exact Nat.not_lt.mpr hge)]
    simp [Ring.push_back]
  · intro hge hne
    unfold Monitor.remove_workspace_by_idx
    rw [if_neg (by exact Nat.not_lt.mpr hge), if_neg hne]
    exact ⟨rfl, rfl⟩

/-- C4 witness: the three cases at concrete inputs — in-bounds removal
of the only workspace, out-of-bounds index 0 on the emptied ring, and
out-of-bounds index 5 on the fresh monitor. -/
theorem C4_witness :
    ((∃ w, monitor0.workspaces.elements[0]? = some w ∧
        (monitor0.remove_workspace_by_idx 0).1 = some w) ∧
      (monitor0.remove_workspace_by_idx 0).2.workspaces.elements
        = monitor0.workspaces.elements.eraseIdx 0) ∧
    ((monitorEmptyRing.remove_workspace_by_idx 0).1 = none ∧
      (monitorEmptyRing.remove_workspace_by_idx 0).2.workspaces.elements
        = monitorEmptyRing.workspaces.elements ++ [Workspace.default]) ∧
    ((monitor0.remove_workspace_by_idx 5).1 = none ∧
      (monitor0.remove_workspace_by_idx 5).2 = (monitor0.focus_workspace 4).2) :=
  ⟨(C4_remove_workspace_case_analysis monitor0 0).1 (by decide),
   (C4_remove_workspace_case_analysis monitorEmptyRing 0).2.1 (by decide) rfl,
   (C4_remove_workspace_case_analysis monitor0 5).2.2 (by decide) (by decide)⟩

/-- C6: when the focused workspace's maximized-window slot is set,
`move_container_to_workspace` returns the precondition error and the
whole monitor state is unchanged — nothing was removed, grown, added or
refocused. -/
theorem C6_maximized_window_blocks_move (m : Monitor) (t : Nat) (f : Bool) (ws : Workspace)
    (hws : m.focused_workspace = some ws)
    (hmax : ws.maximized_window.isSome = true) :
    m.move_container_to_workspace t f
      = (Except.error "cannot move native maximized window to another monitor or workspace",
         m) := by
  unfold Monitor.move_container_to_workspace
  rw [hws]
  simp [hmax]

/-- C6 witness: the blocked move on a concrete monitor whose focused
workspace has a maximized window. -/
theorem C6_witness :
    monitorMax.move_container_to_workspace 5 true
      = (Except.error "cannot move native maximized window to another monitor or workspace",
         monitorMax) :=
  C6_maximized_window_blocks_move monitorMax 5 true wsMax rfl rfl

/-- C7: a name recorded for index `k` in the persistent map (and
applied to the workspace at `k`) survives removing that workspace
(in-bounds case) and refocusing `k`: the workspace then at `k` carries
the recorded name again, because `focus_workspace` re-applies it. -/
theorem C7_workspace_name_persistence (m : Monitor) (k : Nat) (name : String)
    (hrec : List.lookup k m.workspace_names = some name)
    (_happ : (m.workspaces.elements[k]?).map Workspace.name = some (some name))
    (_hk : k < m.workspaceCount) :
    ((((m.remove_workspace_by_idx k).2.focus_workspace k).2.workspaces.elements[k]?).map
        Workspace.name)
      = some (some name) := by
  apply focus_workspace_applies_name
  rw [remove_names]
  exact hrec

/-- C7 witness: the name "dev" recorded for index 0 survives
remove-then-focus on a concrete monitor. -/
theorem C7_witness :
    ((((monitorNamed.remove_workspace_by_idx 0).2.focus_workspace 0).2.workspaces.elements[0]?).map
        Workspace.name)
      = some (some "dev") :=
  C7_workspace_name_persistence monitorNamed 0 "dev" rfl rfl (by decide)

/-- C5: moving the focused container to an out-of-bounds target index
(with a focused workspace holding a focused container and no maximized
window) succeeds; the ring grows to `target + 1` before the container
is appended; the target workspace ends up holding exactly the moved
container (focused there), the source workspace loses it, and with
`follow = true` the monitor's focused workspace index becomes the
target. -/
theorem C5_move_grows_ring_to_target (m : Monitor) (t : Nat) (ws : Workspace) (c : Container)
    (hws : m.focused_workspace = some ws)
    (hmax : ws.maximized_window.isSome = false)
    (hc : ws.containers.elements[ws.containers.focused]? = some c)
    (ht : m.workspaceCount ≤ t) :
    (m.move_container_to_workspace t true).1 = Except.ok () ∧
    (m.move_container_to_workspace t true).2.workspaceCount = t + 1 ∧
    (m.move_container_to_workspace t true).2.focused_workspace_idx = t ∧
    ((m.move_container_to_workspace t true).2.workspaces.elements[t]?).map
        Workspace.containers = some ⟨[c], 0⟩ ∧
    ((m.move_container_to_workspace t true).2.workspaces.elements[m.workspaces.focused]?).map
        (fun w => w.containers.elements)
      = some (ws.containers.elements.eraseIdx ws.containers.focused) := by
  have hfoc : m.workspaces.focused < m.workspaces.elements.length := by
    have h := hws
    unfold Monitor.focused_workspace at h
    exact (List.getElem?_eq_some_iff.mp h).1
  have hlen : m.workspaces.elements.length ≤ t := ht
  have hrc : ws.remove_focused_container = (some c, wsAfterRemoval ws) := by
    unfold Workspace.remove_focused_container wsAfterRemoval
    rw [hc]
  have hsetlen : (m.workspaces.set m.workspaces.focused (wsAfterRemoval ws)).elements.length
      = m.workspaces.elements.length := by
    simp [Ring.set]
  have hcond : ((m.workspaces.set m.workspaces.focused (wsAfterRemoval ws)).get t).isNone
      = true := by
    unfold Ring.get
    rw [List.getElem?_eq_none (by rw [hsetlen]; omega)]
    rfl
  have hrs : ((m.workspaces.set m.workspaces.focused (wsAfterRemoval ws)).resize
        (t + 1) Workspace.default).elements
      = (m.workspaces.set m.workspaces.focused (wsAfterRemoval ws)).elements
        ++ List.replicate (t + 1 - m.workspaces.elements.length) Workspace.default := by
    unfold Ring.resize
    rw [if_neg (by rw [hsetlen]; omega)]
    rw [hsetlen]
  have hget : ((m.workspaces.set m.workspaces.focused (wsAfterRemoval ws)).resize
        (t + 1) Workspace.default).get t
      = some Workspace.default := by
    unfold Ring.get
    rw [hrs]
    rw [List.getElem?_append_right (by rw [hsetlen]; omega)]
    rw [hsetlen]
    rw [List.getElem?_replicate]
    rw [if_pos (by omega)]
  have hstep : m.move_container_to_workspace t true
      = (Except.ok (), ((movedMonitor m t ws c).focus_workspace t).2) := by
    unfold Monitor.move_container_to_workspace
    rw [hws]
    simp only [hmax, Bool.false_eq_true, if_false]
    simp only [hrc]
    rw [if_pos hcond]
    simp only [hget, if_true]
    rw [focus_workspace_fst]
    rfl
  have hm2len : (movedMonitor m t ws c).workspaceCount = t + 1 := by
    unfold movedMonitor Monitor.workspaceCount
    simp [Ring.set, Ring.length_resize]
  rw [hstep]
  refine ⟨rfl, ?_, ?_, ?_, ?_⟩
  · rw [focus_workspace_count, hm2len]
    split
    · rfl
    · rfl
  · exact focus_workspace_focused _ t
  · rw [focus_workspace_getElem_containers _ t (by rw [hm2len]; omega)]
    unfold movedMonitor
    dsimp only [Ring.set]
    rw [List.getElem?_set_self (by rw [Ring.length_resize]; omega)]
    simp [Workspace.add_container, Workspace.default, Ring.empty]
  · rw [focus_workspace_getElem_ne _ t m.workspaces.focused (by omega) (by rw [hm2len]; omega)]
    unfold movedMonitor
    dsimp only [Ring.set]
    rw [List.getElem?_set_ne (by omega)]
    rw [Ring.elements_resize_grow _ _ _ (by simp only [List.length_set]; omega)]
    rw [List.getElem?_append_left (by simp only [List.length_set]; exact hfoc)]
    rw [List.getElem?_set_self hfoc]
    rfl

/-- C5 witness: the claim's scenario — one workspace, one container, no
maximized window, `move_container_to_workspace(5, follow := true)`:
success, ring length 6, focus 5, container at workspace 5 (focused
there), source workspace emptied. -/
theorem C5_witness :
    (monitor1c.move_container_to_workspace 5 true).1 = Except.ok () ∧
    (monitor1c.move_container_to_workspace 5 true).2.workspaceCount = 6 ∧
    (monitor1c.move_container_to_workspace 5 true).2.focused_workspace_idx = 5 ∧
    ((monitor1c.move_container_to_workspace 5 true).2.workspaces.elements[5]?).map
        Workspace.containers = some ⟨[container0], 0⟩ ∧
    (((monitor1c.move_container_to_workspace 5
          true).2.workspaces.elements[monitor1c.workspaces.focused]?).map
        (fun w => w.containers.elements)) = some [] := by
  have h := C5_move_grows_ring_to_target monitor1c 5
    (Workspace.default.add_container container0) container0 rfl rfl rfl (by decide)
  exact ⟨h.1, h.2.1, h.2.2.1, h.2.2.2.1, h.2.2.2.2⟩

/-- C1 counterexample: the fresh monitor satisfies the invariant
(`len = 1`), yet `remove_workspace_by_idx(0)` — an in-bounds removal —
leaves the workspace ring empty, so the invariant does not hold after
every operation and index 0 is left without a workspace. -/
theorem C1_counterexample :
    1 ≤ monitor0.workspaceCount ∧
    (monitor0.remove_workspace_by_idx 0).2.workspaceCount = 0 := by
  decide

/-- C1 (amended): every listed operation preserves
`workspaces().len() >= 1`, except an in-bounds `remove_workspace_by_idx`
on a ring of length 1 (necessarily `idx = 0`), which removes the last
workspace and leaves the ring empty; a further
`remove_workspace_by_idx(0)` on the empty ring pushes a fresh default
workspace, restoring the invariant. -/
theorem C1_ring_nonempty_preserved (m : Monitor) (op : MonitorOp)
    (h1 : 1 ≤ m.workspaceCount)
    (hsafe : ∀ idx, op = MonitorOp.remove_workspace_by_idx idx →
      ¬(m.workspaceCount = 1 ∧ idx < m.workspaceCount)) :
    1 ≤ (m.applyOp op).workspaceCount := by
  cases op with
  | load_focused_workspace mff =>
    simp only [Monitor.applyOp]
    unfold Monitor.load_focused_workspace
    cases hp : Monitor.loadGo mff m.focused_workspace_idx 0 m.workspaces.elements with
    | mk r es =>
      have hl := loadGo_length mff m.focused_workspace_idx m.workspaces.elements 0
      rw [hp] at hl
      dsimp only at hl
      simp only [hp]
      unfold Monitor.workspaceCount at h1 ⊢
      dsimp only
      omega
  | add_container c =>
    simp only [Monitor.applyOp]
    unfold Monitor.add_container
    cases hw : m.focused_workspace with
    | none => exact h1
    | some ws =>
      unfold Monitor.workspaceCount at h1 ⊢
      simpa [Ring.set] using h1
  | remove_workspace_by_idx idx =>
    have hs := hsafe idx rfl
    unfold Monitor.workspaceCount at h1 hs
    simp only [Monitor.applyOp]
    unfold Monitor.remove_workspace_by_idx
    by_cases h : idx < m.workspaces.elements.length
    · have hcount2 : 2 ≤ m.workspaces.elements.length := by
        rcases Nat.lt_or_ge m.workspaces.elements.length 2 with hsmall | hbig
        · exact absurd ⟨by omega, h⟩ hs
        · exact hbig
      rw [if_pos h]
      unfold Ring.remove
      rw [List.getElem?_eq_getElem h]
      unfold Monitor.workspaceCount
      simp only
      rw [List.length_eraseIdx_of_lt h]
      omega
    · rw [if_neg h]
      by_cases h0 : idx = 0
      · rw [if_pos h0]
        unfold Monitor.workspaceCount
        simp [Ring.push_back]
      · rw [if_neg h0]
        exact focus_workspace_count_pos m (idx - 1)
  | ensure_workspace_count n =>
    simp only [Monitor.applyOp]
    unfold Monitor.ensure_workspace_count
    split
    · unfold Monitor.workspaceCount at h1 ⊢
      simp only [Ring.length_resize]
      omega
    · exact h1
  | move_container_to_workspace t f => exact move_count_ge_one m t f h1
  | focus_workspace idx => exact focus_workspace_count_pos m idx
  | new_workspace_idx => exact h1
  | update_focused_workspace o b =>
    simp only [Monitor.applyOp]
    unfold Monitor.update_focused_workspace
    split
    · exact h1
    · dsimp only
      split
      · exact h1
      · unfold Monitor.workspaceCount at h1 ⊢
        simpa [Ring.set] using h1

/-- C1 witness: the amended preservation applied to the fresh monitor
and a `focus_workspace 3` operation. -/
theorem C1_witness :
    1 ≤ (monitor0.applyOp (MonitorOp.focus_workspace 3)).workspaceCount :=
  C1_ring_nonempty_preserved monitor0 (MonitorOp.focus_workspace 3) (by decide)
    (fun idx h => nomatch h)

end Komorebi
